import Mathlib

/-!
Verification of the Unraid-Dashboard aggregation core.

This file gives a shallow embedding, in Lean 4, of the parts of the
Unraid-Dashboard repository that its specification talks about:

* the schema-adaptive GraphQL query engine (`gql` / `tryQueries` in
  `src/api/unraid.js`, lines 32-62 of the first variant and 274-284 of the
  later variant),
* the status classifier `classifyStatus` (lines 104-122),
* the per-host snapshot normaliser `getHostStatus` (two variants),
* the `/api/servers` multi-host aggregation handlers (the
  `Promise.allSettled` handler and the `Promise.all` handler),
* the container / VM action dispatchers (`containerAction`, `vmAction`),
* the host/token configuration store (`configStore.js`, three variants of
  `deleteHost`).

JavaScript values are embedded as follows: JSON numbers are `ℚ`, strings are
`String`, `null`/`undefined`/missing fields are `Option.none`, thrown
`Error` objects are an explicit error type, and `async` control flow is
replaced by explicit outcome values passed to the functions that in the
source would perform the I/O.  Each definition carries a comment naming the
source lines it embeds.
-/

namespace UnraidDash

/-! ### JavaScript string and truthiness helpers -/

/-- ASCII lower-casing of a string, used to model `String.prototype.toLowerCase`
on the ASCII data this program compares (`String.toLower` itself does not
reduce in the kernel, so we map over the character list). -/
def strLower (s : String) : String := ⟨s.data.map Char.toLower⟩

/-- ASCII upper-casing of a string, modelling `String.prototype.toUpperCase`. -/
def strUpper (s : String) : String := ⟨s.data.map Char.toUpper⟩

/-- Decidable check that `pat` occurs as a contiguous sublist of `l`. -/
def listContainsSeq {α : Type} [DecidableEq α] (pat : List α) : List α → Bool
  | [] => pat.isPrefixOf ([] : List α)
  | a :: rest => pat.isPrefixOf (a :: rest) || listContainsSeq pat rest

/-- Substring test: does `hay` contain `pat`?  Models `String.prototype.includes`
and regular-expression tests whose pattern is a plain word. -/
def containsSub (hay pat : String) : Bool := listContainsSeq pat.data hay.data

/-- JS truthiness of an optional string: `undefined`/`null` and the empty
string are falsy, every other string is truthy. -/
def jsTruthyStr (o : Option String) : Bool :=
  match o with
  | some s => !s.isEmpty
  | none => false

/-- JS `a || b` on an optional string with a string default: returns the
string when it is truthy, otherwise the default. -/
def jsOrStr (o : Option String) (dflt : String) : String :=
  match o with
  | some s => if s.isEmpty then dflt else s
  | none => dflt

/-- JS `x1 || x2 || ... || null` over optional strings: the first truthy
entry, or `none` when every entry is falsy. -/
def jsFirstTruthy : List (Option String) → Option String
  | [] => none
  | o :: rest => if jsTruthyStr o then o else jsFirstTruthy rest

/-- JS `Math.round` on a rational: round half toward positive infinity,
`Math.round(x) = floor(x + 0.5)`. -/
def jsRound (x : ℚ) : ℤ := ⌊x + 1/2⌋

/-! ### Transport and GraphQL core

`gql` (src/api/unraid.js first variant lines 32-54; identical logic in the
later variants) posts one query.  Its possible outcomes, seen from the
caller, are: the parsed `data`; a non-2xx HTTP response; a 2xx response
whose body carries a GraphQL `errors` array; a transport failure (the
`fetch` call threw and `httpJSON` re-threw a classified message); or the
fail-fast path when no API token is configured for the base URL.  The
`GqlStep` value records which of these the backend produced for a query;
`gqlRun` turns it into the value returned or the `Error` thrown by `gql`. -/

/-- Outcome of the HTTP round-trip behind one `gql` call. -/
inductive GqlStep (D : Type) where
  | data (d : D)
  | httpFail (status : Nat) (firstErrMsg : Option String)
  | gqlErrors (msgs : List String)
  | netFail (raw : String)
  | missingToken
deriving DecidableEq

/-- Error object thrown by `gql`: the message together with the
`_validation` flag (`err._validation = /cannot query field/i.test(msg)`;
plain `Error`s carry no flag, which reads back as `false`). -/
structure GqlErr where
  msg : String
  validation : Bool
deriving DecidableEq

/-- Embeds `netHint` (src/api/unraid.js lines 13-21): classify a raw network
error message into a human-readable hint. -/
def netHint (raw : String) : Option String :=
  let m := strLower raw
  if containsSub m "self signed" then
    some "TLS failed (self-signed). Enable UNRAID_ALLOW_SELF_SIGNED=true."
  else if containsSub m "unauthorized" || containsSub m "401" then
    some "Unauthorized. Check Unraid API token."
  else if containsSub m "econnrefused" then some "Connection refused."
  else if containsSub m "getaddrinfo" || containsSub m "dns" then some "DNS problem."
  else if containsSub m "timeout" then some "Request timed out."
  else none

/-- The regular expression `/cannot query field/i` applied to a message. -/
def validationTest (msg : String) : Bool := containsSub (strLower msg) "cannot query field"

/-- Models `new URL('/graphql', baseUrl).toString()` for a base URL without a
path component. -/
def endpointOf (baseUrl : String) : String := baseUrl ++ "/graphql"

/-- Embeds `gql` (src/api/unraid.js lines 32-54): given the backend outcome
for a query, produce the data returned or the error thrown.  Only the
GraphQL-errors branch sets `_validation`; the HTTP, network and
missing-token branches throw plain `Error`s. -/
def gqlRun {D : Type} (baseUrl : String) (behave : String → GqlStep D) (q : String) :
    Except GqlErr D :=
  match behave q with
  | GqlStep.data d => Except.ok d
  | GqlStep.missingToken =>
      Except.error ⟨"No API token configured for " ++ baseUrl, false⟩
  | GqlStep.httpFail st m =>
      Except.error
        ⟨"HTTP " ++ toString st ++ " from " ++ endpointOf baseUrl ++ ": "
            ++ jsOrStr m ("HTTP " ++ toString st), false⟩
  | GqlStep.gqlErrors msgs =>
      let msg := String.intercalate "; " msgs
      Except.error ⟨msg, validationTest msg⟩
  | GqlStep.netFail raw =>
      Except.error ⟨(netHint raw).getD ("Network error: " ++ raw), false⟩

/-- Did this `gql` outcome soft-fail, i.e. throw an error whose
`_validation` flag is set?  (`tryQueries` falls through exactly then.) -/
def softFails {D : Type} (r : Except GqlErr D) : Bool :=
  match r with
  | Except.ok _ => false
  | Except.error e => e.validation

/-- Embeds the loop body of `tryQueries` (src/api/unraid.js lines 274-284 /
lines 55-62 of the sibling variant), additionally recording, in order, the
variants actually handed to `gql`:

    let lastErr;
    for (const q of variants) {
      try { return await gql(baseUrl, q, variables); }
      catch (e) { lastErr = e; if (!e._validation) break; }
    }
    throw lastErr;

The second component is the value returned or thrown (`Except.error none`
models the `throw undefined` on an empty variant list). -/
def tryQueriesAux {D : Type} (run : String → Except GqlErr D) :
    List String → Option GqlErr → List String × Except (Option GqlErr) D
  | [], lastErr => ([], Except.error lastErr)
  | q :: rest, _ =>
    match run q with
    | Except.ok d => ([q], Except.ok d)
    | Except.error e =>
      if e.validation then
        let r := tryQueriesAux run rest (some e)
        (q :: r.1, r.2)
      else
        ([q], Except.error (some e))

/-- Embeds `tryQueries`: try the variants in order with `lastErr` initially
undefined.  Returns the trace of attempted variants and the result. -/
def tryQueries {D : Type} (run : String → Except GqlErr D) (variants : List String) :
    List String × Except (Option GqlErr) D :=
  tryQueriesAux run variants none

/-! ### Properties of the query engine -/

theorem tryQueriesAux_cons_ok {D : Type} (run : String → Except GqlErr D)
    (q : String) (rest : List String) (le : Option GqlErr) (d : D)
    (hr : run q = Except.ok d) :
    tryQueriesAux run (q :: rest) le = ([q], Except.ok d) := by
  simp only [tryQueriesAux, hr]

theorem tryQueriesAux_cons_soft {D : Type} (run : String → Except GqlErr D)
    (q : String) (rest : List String) (le : Option GqlErr) (e : GqlErr)
    (hr : run q = Except.error e) (hv : e.validation = true) :
    tryQueriesAux run (q :: rest) le
      = (q :: (tryQueriesAux run rest (some e)).1, (tryQueriesAux run rest (some e)).2) := by
  simp only [tryQueriesAux, hr, hv, if_true]

theorem tryQueriesAux_cons_hard {D : Type} (run : String → Except GqlErr D)
    (q : String) (rest : List String) (le : Option GqlErr) (e : GqlErr)
    (hr : run q = Except.error e) (hv : e.validation = false) :
    tryQueriesAux run (q :: rest) le = ([q], Except.error (some e)) := by
  simp only [tryQueriesAux, hr, hv, Bool.false_eq_true, if_false]

theorem tryQueriesAux_soft_prefix {D : Type} (run : String → Except GqlErr D) :
    ∀ (pre : List String), (∀ p ∈ pre, softFails (run p) = true) →
    ∀ (q : String) (rest : List String) (le le2 : Option GqlErr),
      tryQueriesAux run (pre ++ q :: rest) le
        = (pre ++ (tryQueriesAux run (q :: rest) le2).1, (tryQueriesAux run (q :: rest) le2).2)
  | [], _, q, rest, le, le2 => by
      show tryQueriesAux run (q :: rest) le = _
      rfl
  | p :: pre2, h, q, rest, le, le2 => by
      have hp : softFails (run p) = true := h p (List.mem_cons_self p pre2)
      cases hr : run p with
      | ok d => rw [hr] at hp; simp [softFails] at hp
      | error e =>
        rw [hr] at hp
        have hv : e.validation = true := hp
        have ih := tryQueriesAux_soft_prefix run pre2
          (fun x hx => h x (List.mem_cons_of_mem p hx)) q rest (some e) le2
        rw [List.cons_append, tryQueriesAux_cons_soft run p (pre2 ++ q :: rest) le e hr hv, ih]
        simp

theorem tryQueriesAux_trace_head {D : Type} (run : String → Except GqlErr D)
    (q : String) (rest : List String) (le : Option GqlErr) :
    (tryQueriesAux run (q :: rest) le).1.head? = some q := by
  cases hr : run q with
  | ok d => rw [tryQueriesAux_cons_ok run q rest le d hr]; rfl
  | error e =>
    cases hv : e.validation with
    | true => rw [tryQueriesAux_cons_soft run q rest le e hr hv]; rfl
    | false => rw [tryQueriesAux_cons_hard run q rest le e hr hv]; rfl

theorem tryQueriesAux_trace_mem {D : Type} (run : String → Except GqlErr D) :
    ∀ (vs : List String) (le : Option GqlErr) (x : String),
      x ∈ (tryQueriesAux run vs le).1 → x ∈ vs
  | [], _, _, hx => by simp [tryQueriesAux] at hx
  | q :: rest, le, x, hx => by
      cases hr : run q with
      | ok d =>
        rw [tryQueriesAux_cons_ok run q rest le d hr] at hx
        exact List.mem_cons.mpr (Or.inl (by simpa using hx))
      | error e =>
        cases hv : e.validation with
        | true =>
          rw [tryQueriesAux_cons_soft run q rest le e hr hv] at hx
          rcases List.mem_cons.mp hx with h | h
          · exact h ▸ List.mem_cons_self q rest
          · exact List.mem_cons_of_mem q (tryQueriesAux_trace_mem run rest (some e) x h)
        | false =>
          rw [tryQueriesAux_cons_hard run q rest le e hr hv] at hx
          exact List.mem_cons.mpr (Or.inl (by simpa using hx))

/-- C1: given a soft-failing prefix, the engine tries the variants in list
order and returns the data of the first succeeding variant without
attempting any later variant (the trace is exactly the prefix plus the
succeeding variant); and when every variant soft-fails, the error thrown is
the one produced by the last variant of the list. -/
theorem tryQueries_first_success_last_error {D : Type} (run : String → Except GqlErr D) :
    (∀ (pre post : List String) (q : String) (d : D),
        (∀ p ∈ pre, softFails (run p) = true) →
        run q = Except.ok d →
        tryQueries run (pre ++ q :: post) = (pre ++ [q], Except.ok d))
  ∧ (∀ (pre : List String) (q : String) (e : GqlErr),
        (∀ p ∈ pre, softFails (run p) = true) →
        run q = Except.error e → e.validation = true →
        tryQueries run (pre ++ [q]) = (pre ++ [q], Except.error (some e))) := by
  constructor
  · intro pre post q d hpre hq
    rw [tryQueries, tryQueriesAux_soft_prefix run pre hpre q post none none,
      tryQueriesAux_cons_ok run q post none d hq]
  · intro pre q e hpre hq hv
    rw [tryQueries, tryQueriesAux_soft_prefix run pre hpre q [] none none,
      tryQueriesAux_cons_soft run q [] none e hq hv]
    simp [tryQueriesAux]

/-- Backend behaviour used to witness C1: variants A and B soft-fail with a
schema mismatch, variant C succeeds. -/
def demoBehaveC1 : String → GqlStep String
  | "A" => GqlStep.gqlErrors ["Cannot query field A on type Query"]
  | "B" => GqlStep.gqlErrors ["Cannot query field B on type Query"]
  | "C" => GqlStep.data "dataC"
  | _ => GqlStep.netFail "timeout"

/-- Witness for C1 at the concrete variant lists `[A, B, C]` (A, B soft-fail,
C succeeds) and `[A, B]` (all soft-fail). -/
theorem tryQueries_first_success_last_error_witness :
    tryQueries (gqlRun "https://10.0.0.5" demoBehaveC1) ["A", "B", "C"]
      = (["A", "B", "C"], Except.ok "dataC")
  ∧ tryQueries (gqlRun "https://10.0.0.5" demoBehaveC1) ["A", "B"]
      = (["A", "B"],
         Except.error (some ⟨"Cannot query field B on type Query", true⟩)) := by
  constructor
  · exact (tryQueries_first_success_last_error
      (gqlRun "https://10.0.0.5" demoBehaveC1)).1 ["A", "B"] [] "C" "dataC"
      (by decide) rfl
  · exact (tryQueries_first_success_last_error
      (gqlRun "https://10.0.0.5" demoBehaveC1)).2 ["A"] "B"
      ⟨"Cannot query field B on type Query", true⟩ (by decide) rfl rfl

/-- C2: a hard failure (an error whose `_validation` flag is false — in
particular every HTTP-status failure such as a 401, every network failure
and the missing-token failure, as the second conjunct shows) makes the
engine rethrow that very error at once: the trace stops at the failing
variant and no later variant is attempted. -/
theorem tryQueries_hard_fail_short_circuit {D : Type} (run : String → Except GqlErr D) :
    (∀ (pre post : List String) (q : String) (e : GqlErr),
        (∀ p ∈ pre, softFails (run p) = true) →
        run q = Except.error e → e.validation = false →
        tryQueries run (pre ++ q :: post) = (pre ++ [q], Except.error (some e)))
  ∧ (∀ (baseUrl : String) (behave : String → GqlStep D) (q : String),
        (∀ st m, behave q = GqlStep.httpFail st m → softFails (gqlRun baseUrl behave q) = false)
      ∧ (∀ raw, behave q = GqlStep.netFail raw → softFails (gqlRun baseUrl behave q) = false)
      ∧ (behave q = GqlStep.missingToken → softFails (gqlRun baseUrl behave q) = false)) := by
  constructor
  · intro pre post q e hpre hq hv
    rw [tryQueries, tryQueriesAux_soft_prefix run pre hpre q post none none,
      tryQueriesAux_cons_hard run q post none e hq hv]
  · intro baseUrl behave q
    refine ⟨fun st m h => ?_, fun raw h => ?_, fun h => ?_⟩
    · simp [gqlRun, h, softFails]
    · simp [gqlRun, h, softFails]
    · simp [gqlRun, h, softFails]

/-- Backend behaviour used to witness C2: variant A hard-fails with an
authorization error (HTTP 401), variant B would succeed but must never be
attempted. -/
def demoBehaveC2 : String → GqlStep String
  | "A" => GqlStep.httpFail 401 none
  | "B" => GqlStep.data "dataB"
  | _ => GqlStep.netFail "timeout"

/-- Witness for C2 at the concrete variant list `[A, B]` where A fails with
an authorization error: the engine raises immediately and never attempts
B. -/
theorem tryQueries_hard_fail_short_circuit_witness :
    tryQueries (gqlRun "https://10.0.0.5" demoBehaveC2) ["A", "B"]
      = (["A"],
         Except.error (some ⟨"HTTP 401 from https://10.0.0.5/graphql: HTTP 401", false⟩))
  ∧ softFails (gqlRun "https://10.0.0.5" demoBehaveC2 "A") = false := by
  constructor
  · exact (tryQueries_hard_fail_short_circuit
      (gqlRun "https://10.0.0.5" demoBehaveC2)).1 [] ["B"] "A"
      ⟨"HTTP 401 from https://10.0.0.5/graphql: HTTP 401", false⟩
      (by decide) rfl rfl
  · exact ((tryQueries_hard_fail_short_circuit
      (gqlRun "https://10.0.0.5" demoBehaveC2)).2 "https://10.0.0.5" demoBehaveC2 "A").1
      401 none rfl

/-! ### Status classifier

`classifyStatus(arrayState, parity, errText)` — src/api/unraid.js (part_013
variant) lines 104-122. -/

/-- Composite status `{code, label}` synthesized by the Normalizer. -/
structure Status where
  code : String
  label : String
deriving DecidableEq

/-- Normalized parity datum handed to `classifyStatus`: the fields read by
the classifier (`type` — called `ptype` here because `type` is reserved in
Lean — `state`, `status`, `progress`) plus the `kind` field used when the
datum came from a `tasks[]` entry. -/
structure ParityInfo where
  ptype : Option String
  state : Option String
  status : Option String
  kind : Option String
  progress : Option ℚ
deriving DecidableEq

/-- The regular expression `/check|parity/i` (and its reordering
`/parity|check/i` used on task kinds) applied to a string. -/
def parityKeywordTest (s : String) : Bool :=
  containsSub (strLower s) "check" || containsSub (strLower s) "parity"

/-- Embeds `String(p?.type || p?.state || p?.status || '')` from line 112. -/
def parityKeywordOf (p : Option ParityInfo) : String :=
  match p with
  | none => ""
  | some q => jsOrStr q.ptype (jsOrStr q.state (jsOrStr q.status ""))

/-- Embeds `typeof p?.progress === 'number' && p.progress >= 0 && p.progress <= 100`
from line 111 (a JSON number models a non-`NaN` JavaScript number). -/
def hasProgressB (p : Option ParityInfo) : Bool :=
  match p with
  | none => false
  | some q =>
    match q.progress with
    | some x => decide (0 ≤ x) && decide (x ≤ 100)
    | none => false

/-- Label of an active parity operation, lines 118-119:
`pct = hasProgress ? Math.round(p.progress) : null` and
`label = pct != null ? 'Parity Check NN%' : 'Parity Check'`. -/
def parityLabel (p : Option ParityInfo) : String :=
  if hasProgressB p then
    "Parity Check " ++ toString (jsRound ((p.bind ParityInfo.progress).getD 0)) ++ "%"
  else "Parity Check"

/-- Embeds `classifyStatus` (lines 104-122).  The branch order is the
order of the source: error text, then missing run-state, then the
not-STARTED check, then active parity, then OK. -/
def classifyStatus (arrayState : Option String) (parity : Option ParityInfo)
    (errText : Option String) : Status :=
  if jsTruthyStr errText then { code := "error", label := errText.getD "" }
  else if !(jsTruthyStr arrayState) then { code := "unknown", label := "Unknown" }
  else
    let isParityActive := parityKeywordTest (parityKeywordOf parity) || hasProgressB parity
    let stateUpper := strUpper (arrayState.getD "")
    if stateUpper ≠ "STARTED" then { code := "stopped", label := stateUpper }
    else if isParityActive then { code := "parity", label := parityLabel parity }
    else { code := "ok", label := "OK" }

/-- Statement of the C3 claim, written in the order the claim gives the
cases: first the stopped check, then active parity, then the absent
run-state, then ok.  This definition follows the claim wording and is
compared against `classifyStatus`, which follows the source. -/
def classifyStatusClaim (arrayState : Option String) (parity : Option ParityInfo) : Status :=
  let isParityActive := parityKeywordTest (parityKeywordOf parity) || hasProgressB parity
  if jsTruthyStr arrayState && (strUpper (arrayState.getD "") ≠ "STARTED" : Bool) then
    { code := "stopped", label := strUpper (arrayState.getD "") }
  else if isParityActive then { code := "parity", label := parityLabel parity }
  else if !(jsTruthyStr arrayState) then { code := "unknown", label := "Unknown" }
  else { code := "ok", label := "OK" }

/-- C3 counterexample: with the run-state absent and an active parity datum
(`type: "check"`), the claimed order yields `{code:'parity'}` but the code
returns `{code:'unknown'}` — the source tests for a missing run-state
before it looks at parity data. -/
theorem classifyStatus_absent_state_counterexample :
    classifyStatus none (some ⟨some "check", none, none, none, none⟩) none
        = { code := "unknown", label := "Unknown" }
  ∧ classifyStatusClaim none (some ⟨some "check", none, none, none, none⟩)
        = { code := "parity", label := "Parity Check" }
  ∧ ({ code := "unknown", label := "Unknown" } : Status)
        ≠ { code := "parity", label := "Parity Check" } :=
  ⟨rfl, rfl, by decide⟩

/-- C3 amended: the classification (with no error text) is computed as —
if the run-state is absent (JS-falsy) the result is `{code:'unknown'}`
regardless of parity data; otherwise if the run-state upper-cases to
something other than "STARTED" the result is `{code:'stopped'}` labelled
with the upper-cased state, regardless of parity data; otherwise if a
parity operation is active (keyword match on type/state/status or numeric
progress in [0,100]) the result is `{code:'parity'}` with the rounded
percentage when progress is known; otherwise `{code:'ok'}`. -/
theorem classifyStatus_characterization (arrayState : Option String) (p : Option ParityInfo) :
    (jsTruthyStr arrayState = false →
        classifyStatus arrayState p none = { code := "unknown", label := "Unknown" })
  ∧ (∀ s : String, arrayState = some s → s.isEmpty = false → strUpper s ≠ "STARTED" →
        classifyStatus arrayState p none = { code := "stopped", label := strUpper s })
  ∧ (∀ s : String, arrayState = some s → strUpper s = "STARTED" →
        (parityKeywordTest (parityKeywordOf p) || hasProgressB p) = true →
        classifyStatus arrayState p none = { code := "parity", label := parityLabel p })
  ∧ (∀ s : String, arrayState = some s → strUpper s = "STARTED" →
        (parityKeywordTest (parityKeywordOf p) || hasProgressB p) = false →
        classifyStatus arrayState p none = { code := "ok", label := "OK" }) := by
  have h0 : jsTruthyStr none = false := rfl
  refine ⟨fun h => ?_, fun s hs hne hup => ?_, fun s hs hup hact => ?_, fun s hs hup hact => ?_⟩
  · simp [classifyStatus, h0, h]
  · subst hs
    have ht : jsTruthyStr (some s) = true := by simp [jsTruthyStr, hne]
    simp [classifyStatus, h0, ht, hup]
  · subst hs
    have hne : s.isEmpty = false := by
      cases he : s.isEmpty
      · rfl
      · rw [String.isEmpty_iff] at he
        subst he
        simp [strUpper] at hup
    have ht : jsTruthyStr (some s) = true := by simp [jsTruthyStr, hne]
    simp [classifyStatus, h0, ht, hup, hact]
  · subst hs
    have hne : s.isEmpty = false := by
      cases he : s.isEmpty
      · rfl
      · rw [String.isEmpty_iff] at he
        subst he
        simp [strUpper] at hup
    have ht : jsTruthyStr (some s) = true := by simp [jsTruthyStr, hne]
    simp [classifyStatus, h0, ht, hup, hact]

/-- Witness for the amended C3 at the concrete inputs of spec property P4,
plus the absent-state case: STOPPED is stopped regardless of parity data,
STARTED with progress 42 is `Parity Check 42%`, STARTED without parity data
is OK, and an absent run-state is Unknown. -/
theorem classifyStatus_characterization_witness :
    classifyStatus (some "STOPPED") (some ⟨none, none, none, none, some 42⟩) none
        = { code := "stopped", label := "STOPPED" }
  ∧ classifyStatus (some "STARTED") (some ⟨none, none, none, none, some 42⟩) none
        = { code := "parity", label := "Parity Check 42%" }
  ∧ classifyStatus (some "STARTED") none none = { code := "ok", label := "OK" }
  ∧ classifyStatus none (some ⟨none, none, none, none, some 42⟩) none
        = { code := "unknown", label := "Unknown" } := by
  have h42 : jsRound ((42 : ℚ)) = 42 := by norm_num [jsRound, Int.floor_eq_iff]
  have hlabel : parityLabel (some ⟨none, none, none, none, some 42⟩) = "Parity Check 42%" := by
    rw [parityLabel]
    have hp : hasProgressB (some ⟨none, none, none, none, some 42⟩) = true := by decide
    rw [if_pos hp]
    rw [show ((some (⟨none, none, none, none, some 42⟩ : ParityInfo)).bind
          ParityInfo.progress).getD 0 = (42 : ℚ) from rfl, h42]
    rfl
  have hprog : hasProgressB (some ⟨none, none, none, none, some 42⟩) = true := by decide
  refine ⟨?_, ?_, ?_, ?_⟩
  · exact (classifyStatus_characterization (some "STOPPED")
      (some ⟨none, none, none, none, some 42⟩)).2.1 "STOPPED" rfl rfl (by decide)
  · have h := (classifyStatus_characterization (some "STARTED")
      (some ⟨none, none, none, none, some 42⟩)).2.2.1 "STARTED" rfl rfl
      (by rw [Bool.or_eq_true]; exact Or.inr hprog)
    rw [h, hlabel]
  · exact (classifyStatus_characterization (some "STARTED") none).2.2.2 "STARTED" rfl rfl
      (by decide)
  · exact (classifyStatus_characterization none
      (some ⟨none, none, none, none, some 42⟩)).1 rfl

/-! ### Capacity reconciliation

The storage-percentage computation of `getHostStatus` — part_013 variant
lines 160-176 and part_016 lines 152-171 (the two are identical). -/

/-- Shape of `array.capacity` in the first two capacity query variants. -/
structure Capacity where
  total : Option ℚ
  used : Option ℚ
  free : Option ℚ
deriving DecidableEq

/-- Shape of `data.array` in a capacity response: either a `capacity`
object, or the legacy `size`/`free` pair of the third variant. -/
structure CapArray where
  capacity : Option Capacity
  size : Option ℚ
  free : Option ℚ
deriving DecidableEq

/-- A capacity query response `{ array? }`. -/
structure CapResp where
  array : Option CapArray
deriving DecidableEq

/-- Embeds the `storagePct` computation: `t = Number(total ?? 0)`,
`u = Number(used ?? NaN)`, `f = Number(free ?? NaN)`; when `t > 0`, use
`Math.round(u/t*100)` when `u` is not NaN, else `Math.round((t-f)/t*100)`
when `f` is not NaN, else leave `null`; the `size`/`free` shape uses the
free-based formula. -/
def storagePctOf (cap : CapResp) : Option ℤ :=
  match cap.array with
  | none => none
  | some a =>
    match a.capacity with
    | some c =>
      let t : ℚ := c.total.getD 0
      if 0 < t then
        match c.used with
        | some u => some (jsRound (u / t * 100))
        | none =>
          match c.free with
          | some f => some (jsRound ((t - f) / t * 100))
          | none => none
      else none
    | none =>
      match a.size, a.free with
      | some t, some f => if 0 < t then some (jsRound ((t - f) / t * 100)) else none
      | _, _ => none

/-- C4: for a capacity response with positive total, the storage percentage
is `round(used/total*100)`; when only `free` is given, `used` is computed as
`total - free`; when neither `used` nor `free` is present the result is
`null`, not 0. -/
theorem storagePct_reconciliation (t u f : ℚ) (fo : Option ℚ) (ht : 0 < t) :
    storagePctOf ⟨some ⟨some ⟨some t, some u, fo⟩, none, none⟩⟩
        = some (jsRound (u / t * 100))
  ∧ storagePctOf ⟨some ⟨some ⟨some t, none, some f⟩, none, none⟩⟩
        = some (jsRound ((t - f) / t * 100))
  ∧ storagePctOf ⟨some ⟨some ⟨some t, none, none⟩, none, none⟩⟩ = none := by
  refine ⟨?_, ?_, ?_⟩ <;> simp [storagePctOf, ht]

/-- Witness for C4 at the concrete inputs of spec property P3:
`{total:1000, free:400}` and `{total:1000, used:600}` both give 60, while a
total without `used` or `free` gives `null`. -/
theorem storagePct_reconciliation_witness :
    storagePctOf ⟨some ⟨some ⟨some 1000, none, some 400⟩, none, none⟩⟩ = some 60
  ∧ storagePctOf ⟨some ⟨some ⟨some 1000, some 600, none⟩, none, none⟩⟩ = some 60
  ∧ storagePctOf ⟨some ⟨some ⟨some 1000, none, none⟩, none, none⟩⟩ = none := by
  have h := storagePct_reconciliation 1000 600 400 none (by norm_num)
  refine ⟨?_, ?_, h.2.2⟩
  · rw [h.2.1]
    norm_num [jsRound, Int.floor_eq_iff]
  · rw [h.1]
    norm_num [jsRound, Int.floor_eq_iff]

/-! ### Per-host snapshot normaliser

`getHostStatus(baseUrl)` exists in two cited variants: part_013 lines
125-212 (with parity, metrics and capacity sub-queries) and part_016 lines
118-208 (with hostname/OS normalisation and a docker sub-query outside any
inner try).  Each runs `tryQueries` for several sub-queries; here the
outcome of each sub-query is passed in explicitly, and the function builds
the same result object the source builds. -/

/-- Message stored by `return { ok:false, error: e.message || String(e) }`:
an empty message falls back to the `Error` string form, and the
`throw undefined` of an empty variant list stringifies to "undefined". -/
def errMsgOf (e : Option GqlErr) : String :=
  match e with
  | some err => jsOrStr (some err.msg) "Error"
  | none => "undefined"

/-- Did this sub-query outcome throw? -/
def exceptFailed {E A : Type} : Except E A → Bool
  | Except.error _ => true
  | Except.ok _ => false

/-- Shape of `data.array` in the info/array query: `{state?}` or `{status?}`. -/
structure ArrayField where
  state : Option String
  status : Option String
deriving DecidableEq

/-- Response of the `Q_INFO_ARRAY` sub-query as read by the part_013
variant, which only consumes `sys.array`. -/
structure SysResp13 where
  array : Option ArrayField
deriving DecidableEq

/-- Embeds `sys.array?.state || sys.array?.status || null` (line 132). -/
def arrayStateOf (s : SysResp13) : Option String :=
  jsFirstTruthy [s.array.bind ArrayField.state, s.array.bind ArrayField.status]

/-- Shape of `data.array` in a `Q_PARITY` response: one of the three
historically observed parity shapes. -/
structure ParityArray where
  operation : Option ParityInfo
  parityCheck : Option ParityInfo
  tasks : Option (List ParityInfo)
deriving DecidableEq

/-- A `Q_PARITY` response `{ array? }`. -/
structure ParityData where
  array : Option ParityArray
deriving DecidableEq

/-- Embeds lines 137-141: `const a = p?.array || {}` and
`a.operation ?? a.parityCheck ?? (Array.isArray(a.tasks) ?
a.tasks.find(t => /parity|check/i.test(t.kind || '')) : null) ?? null`. -/
def normalizeParity (p : ParityData) : Option ParityInfo :=
  match p.array with
  | none => none
  | some a =>
    a.operation.orElse (fun _ =>
      a.parityCheck.orElse (fun _ =>
        match a.tasks with
        | some ts => ts.find? (fun t => parityKeywordTest (t.kind.getD ""))
        | none => none))

/-- `metrics.cpu` of the first metrics variant. -/
structure MetricsCpu where
  percent : Option ℚ
deriving DecidableEq

/-- `metrics.memory` of the first metrics variant. -/
structure MetricsMemory where
  percentUsed : Option ℚ
deriving DecidableEq

/-- `metrics` of the first metrics variant. -/
structure MetricsInner where
  cpu : Option MetricsCpu
  memory : Option MetricsMemory
deriving DecidableEq

/-- `host` of the second metrics variant. -/
structure MetricsHost where
  cpuPct : Option ℚ
  memoryPct : Option ℚ
deriving DecidableEq

/-- `resources` of the third metrics variant. -/
structure MetricsResources where
  cpuPercent : Option ℚ
  memPercent : Option ℚ
deriving DecidableEq

/-- A `Q_HOST_METRICS` response: whichever of the three top-level fields the
answering schema variant provides. -/
structure MetricsResp where
  metrics : Option MetricsInner
  host : Option MetricsHost
  resources : Option MetricsResources
deriving DecidableEq

/-- Embeds lines 145-157 (identically part_016 lines 136-148): starting from
`cpuPct = null, ramPct = null`, take `m.metrics.cpu?.percent ?? null` and
`m.metrics.memory?.percentUsed ?? null` when `m.metrics` is present, else
the `m.host` pair, else the `m.resources` pair.  `??` is nullish
coalescing, so an explicit 0 is kept. -/
def cpuRamOf (m : MetricsResp) : Option ℚ × Option ℚ :=
  match m.metrics with
  | some mm => (mm.cpu.bind MetricsCpu.percent, mm.memory.bind MetricsMemory.percentUsed)
  | none =>
    match m.host with
    | some hh => (hh.cpuPct, hh.memoryPct)
    | none =>
      match m.resources with
      | some r => (r.cpuPercent, r.memPercent)
      | none => (none, none)

/-- A container record as read by the snapshot counters. -/
structure ContainerRec where
  state : Option String
  status : Option String
deriving DecidableEq

/-- `data.docker` of a `Q_DOCKERS` response. -/
structure DockerInner where
  containers : Option (List ContainerRec)
  list : Option (List ContainerRec)
deriving DecidableEq

/-- A `Q_DOCKERS` response `{ docker? }`. -/
structure DockerResp where
  docker : Option DockerInner
deriving DecidableEq

/-- Embeds `d.docker?.containers || d.docker?.list || []` (arrays are always
truthy in JS, so an empty `containers` array is taken as-is). -/
def dockerArr (d : DockerResp) : List ContainerRec :=
  match d.docker with
  | none => []
  | some di =>
    match di.containers with
    | some l => l
    | none => di.list.getD []

/-- Embeds the part_013 running filter (lines 184-185):
`(c.state || '').toLowerCase() === 'running' ||
String(c.status || '').toLowerCase().includes('up')`. -/
def containerRunning13 (c : ContainerRec) : Bool :=
  (strLower (c.state.getD "") == "running")
    || containsSub (strLower (c.status.getD "")) "up"

/-- Embeds the part_016 mapping (lines 179-184):
`state: c.state || (String(c.status || '').toLowerCase().includes('up') ?
'running' : 'stopped')`. -/
def mappedState16 (c : ContainerRec) : String :=
  jsOrStr c.state
    (if containsSub (strLower (c.status.getD "")) "up" then "running" else "stopped")

/-- Part_016 counts running containers on the mapped state only
(line 185): `String(c.state).toLowerCase() === 'running'`. -/
def containerRunning16 (c : ContainerRec) : Bool :=
  strLower (mappedState16 c) == "running"

/-- A VM domain as read by the snapshot counters. -/
structure VmDomain where
  state : Option String
deriving DecidableEq

/-- `data.vms` of a `Q_VMS` response. -/
structure VmsInner where
  domains : Option (List VmDomain)
deriving DecidableEq

/-- A `Q_VMS` response `{ vms? }`. -/
structure VmsResp where
  vms : Option VmsInner
deriving DecidableEq

/-- Embeds `v?.vms?.domains || []`. -/
def vmDoms (v : VmsResp) : List VmDomain :=
  match v.vms with
  | none => []
  | some vi => vi.domains.getD []

/-- JS `String(x)` on an optional string: `undefined` stringifies to the
eight-character word. -/
def jsStringOfOpt (o : Option String) : String :=
  match o with
  | some s => s
  | none => "undefined"

/-- Embeds `String(x.state).toLowerCase() === 'running'` (line 191). -/
def vmRunningB (d : VmDomain) : Bool := strLower (jsStringOfOpt d.state) == "running"

/-- Result of `getHostStatus`: `{ok:true, data}` or `{ok:false, error}`. -/
inductive HostResult (Data : Type) where
  | ok (data : Data)
  | fail (error : String)
deriving DecidableEq

/-- Is the result `{ok:false}`? -/
def HostResult.isFail {Data : Type} : HostResult Data → Bool
  | HostResult.ok _ => false
  | HostResult.fail _ => true

/-- The `data` object built by the part_013 `getHostStatus` (lines 196-205);
`arrayState` is the `system.array.status` field of the response. -/
structure HostData13 where
  arrayState : Option String
  status : Status
  dockerRunning : Nat
  dockerTotal : Nat
  vmRunning : Nat
  vmTotal : Nat
  cpuPct : Option ℚ
  ramPct : Option ℚ
  storagePct : Option ℤ
deriving DecidableEq

/-- Outcomes of the six sub-queries run by the part_013 `getHostStatus`. -/
structure SubOutcomes13 where
  sys : Except (Option GqlErr) SysResp13
  parity : Except (Option GqlErr) ParityData
  metrics : Except (Option GqlErr) MetricsResp
  capacity : Except (Option GqlErr) CapResp
  docker : Except (Option GqlErr) DockerResp
  vms : Except (Option GqlErr) VmsResp

/-- Embeds the part_013 `getHostStatus` (lines 125-212).  The system/array
sub-query is awaited inside the outer `try` only, so its failure reaches the
outer `catch` and produces `{ok:false, error: e.message || String(e)}`;
the parity, metrics, capacity, docker and VM sub-queries each sit in their
own inner `try { ... } catch {}` and a failure there leaves that datum at
its null/zero initial value. -/
def getHostStatus13 (o : SubOutcomes13) : HostResult HostData13 :=
  match o.sys with
  | Except.error e => HostResult.fail (errMsgOf e)
  | Except.ok sys =>
    let arrayState := arrayStateOf sys
    let parityInfo :=
      match o.parity with
      | Except.ok p => normalizeParity p
      | Except.error _ => none
    let cpuRam :=
      match o.metrics with
      | Except.ok m => cpuRamOf m
      | Except.error _ => (none, none)
    let storagePct :=
      match o.capacity with
      | Except.ok cap => storagePctOf cap
      | Except.error _ => none
    let dockerCounts :=
      match o.docker with
      | Except.ok d =>
          ((dockerArr d).filter containerRunning13 |>.length, (dockerArr d).length)
      | Except.error _ => (0, 0)
    let vmCounts :=
      match o.vms with
      | Except.ok v => ((vmDoms v).filter vmRunningB |>.length, (vmDoms v).length)
      | Except.error _ => (0, 0)
    HostResult.ok
      { arrayState := arrayState
        status := classifyStatus arrayState parityInfo none
        dockerRunning := dockerCounts.1
        dockerTotal := dockerCounts.2
        vmRunning := vmCounts.1
        vmTotal := vmCounts.2
        cpuPct := cpuRam.1
        ramPct := cpuRam.2
        storagePct := storagePct }

/-- `info.os` of the first info/array variant. -/
structure OsInfo where
  distro : Option String
  release : Option String
  uptime : Option ℚ
deriving DecidableEq

/-- `info` of the first info/array variant. -/
structure InfoResp where
  os : Option OsInfo
deriving DecidableEq

/-- `system` of the second info/array variant. -/
structure SysSystem where
  hostname : Option String
  osVersion : Option String
  uptime : Option ℚ
deriving DecidableEq

/-- Response of `Q_INFO_ARRAY` as read by the part_016 variant. -/
structure SysResp16 where
  info : Option InfoResp
  system : Option SysSystem
  array : Option ArrayField
deriving DecidableEq

/-- The `data` object built by the part_016 `getHostStatus` (lines 196-204). -/
structure HostData16 where
  hostname : String
  osVersion : String
  uptime : Option ℚ
  arrayStatus : String
  dockerRunning : Nat
  dockerTotal : Nat
  vmRunning : Nat
  vmTotal : Nat
  cpuPct : Option ℚ
  ramPct : Option ℚ
  storagePct : Option ℤ
deriving DecidableEq

/-- Outcomes of the five sub-queries run by the part_016 `getHostStatus`. -/
structure SubOutcomes16 where
  sys : Except (Option GqlErr) SysResp16
  metrics : Except (Option GqlErr) MetricsResp
  capacity : Except (Option GqlErr) CapResp
  docker : Except (Option GqlErr) DockerResp
  vms : Except (Option GqlErr) VmsResp

/-- Embeds the part_016 `getHostStatus` (lines 118-208).  Here both the
system/array sub-query (line 120) and the docker sub-query (line 174) sit
directly in the outer `try`, so either failure produces `{ok:false}`; the
metrics, capacity and VM sub-queries are individually recovered. -/
def getHostStatus16 (o : SubOutcomes16) : HostResult HostData16 :=
  match o.sys with
  | Except.error e => HostResult.fail (errMsgOf e)
  | Except.ok sys =>
    let idTriple :=
      match sys.info.bind InfoResp.os with
      | some os => (jsOrStr os.distro "(Unraid)", jsOrStr os.release "", os.uptime)
      | none =>
        match sys.system with
        | some s => (jsOrStr s.hostname "(Unraid)", jsOrStr s.osVersion "", s.uptime)
        | none => ("(Unraid)", "", none)
    let arrayStatus :=
      jsOrStr (sys.array.bind ArrayField.state)
        (jsOrStr (sys.array.bind ArrayField.status) "—")
    let cpuRam :=
      match o.metrics with
      | Except.ok m => cpuRamOf m
      | Except.error _ => (none, none)
    let storagePct :=
      match o.capacity with
      | Except.ok cap => storagePctOf cap
      | Except.error _ => none
    match o.docker with
    | Except.error e => HostResult.fail (errMsgOf e)
    | Except.ok d =>
      let containers := dockerArr d
      let vmCounts :=
        match o.vms with
        | Except.ok v => ((vmDoms v).filter vmRunningB |>.length, (vmDoms v).length)
        | Except.error _ => (0, 0)
      HostResult.ok
        { hostname := idTriple.1
          osVersion := idTriple.2.1
          uptime := idTriple.2.2
          arrayStatus := arrayStatus
          dockerRunning := (containers.filter containerRunning16).length
          dockerTotal := containers.length
          vmRunning := vmCounts.1
          vmTotal := vmCounts.2
          cpuPct := cpuRam.1
          ramPct := cpuRam.2
          storagePct := storagePct }

/-! ### Failure propagation of the snapshot (C6) and metric normalisation (C8) -/

/-- C6 amended: the snapshot fails (`ok:false`) exactly when its gating
sub-query fails — the system/array sub-query in the part_013 variant, and
the system/array or docker sub-query in the part_016 variant.  Failures of
the parity, metrics, capacity and VM sub-queries (and of the docker
sub-query in part_013) are recovered into null/zero fields and never fail
the snapshot. -/
theorem getHostStatus_fails_iff_gating (o : SubOutcomes13) (p : SubOutcomes16) :
    (getHostStatus13 o).isFail = exceptFailed o.sys
  ∧ (getHostStatus16 p).isFail = (exceptFailed p.sys || exceptFailed p.docker) := by
  constructor
  · cases h : o.sys with
    | error e => simp [getHostStatus13, h, HostResult.isFail, exceptFailed]
    | ok s => simp [getHostStatus13, h, HostResult.isFail, exceptFailed]
  · cases h : p.sys with
    | error e => simp [getHostStatus16, h, HostResult.isFail, exceptFailed]
    | ok s =>
      cases hd : p.docker with
      | error e => simp [getHostStatus16, h, hd, HostResult.isFail, exceptFailed]
      | ok d => simp [getHostStatus16, h, hd, HostResult.isFail, exceptFailed]

/-- Sub-query outcomes where the system/array query times out but the
metrics query succeeds, reporting cpu 12% and ram 34%. -/
def demoOutcomesC6 : SubOutcomes13 :=
  { sys := Except.error (some ⟨"Request timed out.", false⟩)
    parity := Except.error (some ⟨"Request timed out.", false⟩)
    metrics := Except.ok ⟨some ⟨some ⟨some 12⟩, some ⟨some 34⟩⟩, none, none⟩
    capacity := Except.error (some ⟨"Request timed out.", false⟩)
    docker := Except.error (some ⟨"Request timed out.", false⟩)
    vms := Except.error (some ⟨"Request timed out.", false⟩) }

/-- C6 counterexample: the system/array sub-query fails while the metrics
sub-query succeeds, yet the snapshot is `{ok:false}` — so it is not the
case that a failed result is returned only when every sub-query fails. -/
theorem getHostStatus_partial_failure_counterexample :
    getHostStatus13 demoOutcomesC6 = HostResult.fail "Request timed out."
  ∧ demoOutcomesC6.metrics = Except.ok ⟨some ⟨some ⟨some 12⟩, some ⟨some 34⟩⟩, none, none⟩
  ∧ (getHostStatus13 demoOutcomesC6).isFail = true :=
  ⟨rfl, rfl, rfl⟩

/-- The `cpuPct` the served snapshot carries (`none` when the snapshot
failed). -/
def cpuPctOf : HostResult HostData13 → Option ℚ
  | HostResult.ok d => d.cpuPct
  | HostResult.fail _ => none

/-- The `ramPct` the served snapshot carries. -/
def ramPctOf : HostResult HostData13 → Option ℚ
  | HostResult.ok d => d.ramPct
  | HostResult.fail _ => none

/-- A metrics response explicitly reports the CPU value `v` when the
variant branch the source selects (`metrics`, else `host`, else
`resources`) carries `v` in its CPU field.  This is the claim-side notion
of "a backend explicitly reporting the value". -/
def reportsCpu (m : MetricsResp) (v : ℚ) : Prop :=
  (∃ mm c, m.metrics = some mm ∧ mm.cpu = some c ∧ c.percent = some v)
  ∨ (m.metrics = none ∧ ∃ hh, m.host = some hh ∧ hh.cpuPct = some v)
  ∨ (m.metrics = none ∧ m.host = none ∧ ∃ r, m.resources = some r ∧ r.cpuPercent = some v)

/-- A metrics response explicitly reports the RAM value `v`. -/
def reportsRam (m : MetricsResp) (v : ℚ) : Prop :=
  (∃ mm c, m.metrics = some mm ∧ mm.memory = some c ∧ c.percentUsed = some v)
  ∨ (m.metrics = none ∧ ∃ hh, m.host = some hh ∧ hh.memoryPct = some v)
  ∨ (m.metrics = none ∧ m.host = none ∧ ∃ r, m.resources = some r ∧ r.memPercent = some v)

theorem cpuRamOf_fst_some_iff (m : MetricsResp) (v : ℚ) :
    (cpuRamOf m).1 = some v ↔ reportsCpu m v := by
  rcases m with ⟨mo, ho, ro⟩
  cases mo with
  | some mm =>
    cases hc : mm.cpu with
    | none => simp [cpuRamOf, reportsCpu, hc]
    | some c => simp [cpuRamOf, reportsCpu, hc]
  | none =>
    cases ho with
    | some hh => simp [cpuRamOf, reportsCpu]
    | none =>
      cases ro with
      | some r => simp [cpuRamOf, reportsCpu]
      | none => simp [cpuRamOf, reportsCpu]

theorem cpuRamOf_snd_some_iff (m : MetricsResp) (v : ℚ) :
    (cpuRamOf m).2 = some v ↔ reportsRam m v := by
  rcases m with ⟨mo, ho, ro⟩
  cases mo with
  | some mm =>
    cases hc : mm.memory with
    | none => simp [cpuRamOf, reportsRam, hc]
    | some c => simp [cpuRamOf, reportsRam, hc]
  | none =>
    cases ho with
    | some hh => simp [cpuRamOf, reportsRam]
    | none =>
      cases ro with
      | some r => simp [cpuRamOf, reportsRam]
      | none => simp [cpuRamOf, reportsRam]

theorem getHostStatus13_cpuRam (o : SubOutcomes13) (s : SysResp13)
    (h : o.sys = Except.ok s) :
    cpuPctOf (getHostStatus13 o)
        = (match o.metrics with
           | Except.ok m => (cpuRamOf m).1
           | Except.error _ => none)
  ∧ ramPctOf (getHostStatus13 o)
        = (match o.metrics with
           | Except.ok m => (cpuRamOf m).2
           | Except.error _ => none) := by
  cases hm : o.metrics with
  | ok m => constructor <;> simp [getHostStatus13, h, hm, cpuPctOf, ramPctOf]
  | error e => constructor <;> simp [getHostStatus13, h, hm, cpuPctOf, ramPctOf]

/-- C8: in the snapshot built by `getHostStatus` (part_013 variant; the
part_016 variant uses the identical extraction `cpuRamOf`), a CPU or RAM
value explicitly reported by the answering variant — including an explicit
0 — is served unchanged, and when no variant reports a value (or the whole
metrics sub-query failed) the served value is `null`: a reported 0 is never
turned into `null` and an absent value is never turned into 0. -/
theorem metrics_zero_vs_null (o : SubOutcomes13) (s : SysResp13)
    (h : o.sys = Except.ok s) :
    (∀ m, o.metrics = Except.ok m →
        (∀ v, reportsCpu m v → cpuPctOf (getHostStatus13 o) = some v)
      ∧ ((∀ v, ¬ reportsCpu m v) → cpuPctOf (getHostStatus13 o) = none)
      ∧ (∀ v, reportsRam m v → ramPctOf (getHostStatus13 o) = some v)
      ∧ ((∀ v, ¬ reportsRam m v) → ramPctOf (getHostStatus13 o) = none))
  ∧ (∀ e, o.metrics = Except.error e →
        cpuPctOf (getHostStatus13 o) = none ∧ ramPctOf (getHostStatus13 o) = none) := by
  have hbase := getHostStatus13_cpuRam o s h
  constructor
  · intro m hm
    refine ⟨fun v hv => ?_, fun hnone => ?_, fun v hv => ?_, fun hnone => ?_⟩
    · rw [hbase.1, hm]
      exact (cpuRamOf_fst_some_iff m v).mpr hv
    · rw [hbase.1, hm]
      cases hc : (cpuRamOf m).1 with
      | none => exact hc
      | some v => exact absurd ((cpuRamOf_fst_some_iff m v).mp hc) (hnone v)
    · rw [hbase.2, hm]
      exact (cpuRamOf_snd_some_iff m v).mpr hv
    · rw [hbase.2, hm]
      cases hc : (cpuRamOf m).2 with
      | none => exact hc
      | some v => exact absurd ((cpuRamOf_snd_some_iff m v).mp hc) (hnone v)
  · intro e he
    constructor
    · rw [hbase.1, he]
    · rw [hbase.2, he]

/-- Sub-outcomes where the backend explicitly reports cpu 0 and ram 0. -/
def demoOutcomesZero : SubOutcomes13 :=
  { sys := Except.ok ⟨some ⟨some "STARTED", none⟩⟩
    parity := Except.error (some ⟨"Request timed out.", false⟩)
    metrics := Except.ok ⟨some ⟨some ⟨some 0⟩, some ⟨some 0⟩⟩, none, none⟩
    capacity := Except.error (some ⟨"Request timed out.", false⟩)
    docker := Except.error (some ⟨"Request timed out.", false⟩)
    vms := Except.error (some ⟨"Request timed out.", false⟩) }

/-- Sub-outcomes where the metrics response names none of the three variant
fields, so no value is reported at all. -/
def demoOutcomesAbsent : SubOutcomes13 :=
  { sys := Except.ok ⟨some ⟨some "STARTED", none⟩⟩
    parity := Except.error (some ⟨"Request timed out.", false⟩)
    metrics := Except.ok ⟨none, none, none⟩
    capacity := Except.error (some ⟨"Request timed out.", false⟩)
    docker := Except.error (some ⟨"Request timed out.", false⟩)
    vms := Except.error (some ⟨"Request timed out.", false⟩) }

/-- Witness for C8: an explicitly reported 0 is served as `some 0`, and a
metrics response reporting nothing is served as `none`. -/
theorem metrics_zero_vs_null_witness :
    cpuPctOf (getHostStatus13 demoOutcomesZero) = some 0
  ∧ ramPctOf (getHostStatus13 demoOutcomesZero) = some 0
  ∧ cpuPctOf (getHostStatus13 demoOutcomesAbsent) = none
  ∧ ramPctOf (getHostStatus13 demoOutcomesAbsent) = none := by
  have hz := (metrics_zero_vs_null demoOutcomesZero ⟨some ⟨some "STARTED", none⟩⟩ rfl).1
    ⟨some ⟨some ⟨some 0⟩, some ⟨some 0⟩⟩, none, none⟩ rfl
  have ha := (metrics_zero_vs_null demoOutcomesAbsent ⟨some ⟨some "STARTED", none⟩⟩ rfl).1
    ⟨none, none, none⟩ rfl
  refine ⟨?_, ?_, ?_, ?_⟩
  · exact hz.1 0 (Or.inl ⟨⟨some ⟨some 0⟩, some ⟨some 0⟩⟩, ⟨some 0⟩, rfl, rfl, rfl⟩)
  · exact hz.2.2.1 0 (Or.inl ⟨⟨some ⟨some 0⟩, some ⟨some 0⟩⟩, ⟨some 0⟩, rfl, rfl, rfl⟩)
  · refine ha.2.1 (fun v hv => ?_)
    rcases hv with ⟨mm, c, h1, h2, h3⟩ | ⟨h1, hh, h2, h3⟩ | ⟨h1, h2, r, h3, h4⟩
    · exact Option.noConfusion h1
    · exact Option.noConfusion h2
    · exact Option.noConfusion h3
  · refine ha.2.2.2 (fun v hv => ?_)
    rcases hv with ⟨mm, c, h1, h2, h3⟩ | ⟨h1, hh, h2, h3⟩ | ⟨h1, h2, r, h3, h4⟩
    · exact Option.noConfusion h1
    · exact Option.noConfusion h2
    · exact Option.noConfusion h3

/-! ### Multi-host aggregation (`GET /api/servers`)

Two cited handlers: the `Promise.allSettled` handler of part_011 (lines
193-235), which substitutes a degraded offline record for a failed host,
and the `Promise.all` handler of src/server.js (lines 310-319), which
stores `status: null` for a failed host. -/

/-- A configured host record `{name, baseUrl, mac}`. -/
structure HostRec where
  name : String
  baseUrl : String
  mac : String
deriving DecidableEq

/-- The metrics object served per host by the allSettled handler. -/
structure ServedMetrics where
  cpuPct : Option ℚ
  ramPct : Option ℚ
  storagePct : Option ℤ
deriving DecidableEq

/-- The record served per host by the allSettled handler. -/
structure ServerRecord where
  name : String
  baseUrl : String
  mac : String
  status : Status
  metrics : ServedMetrics
  error : Option String
deriving DecidableEq

/-- Outcome of one host's mapper task: `getHostStatus` returned a result, or
the task threw/rejected with a message (both the `catch` branch and the
`allSettled` rejected branch build the same degraded record). -/
inductive HostTask (Data : Type) where
  | returned (st : HostResult Data)
  | threw (msg : String)
deriving DecidableEq

/-- Embeds the per-host record of the allSettled handler (part_011 lines
196-231).  `getHostStatus` returns `{ok, data}` / `{ok:false, error}`, so
the reads `st?.status`, `st?.metrics?.cpuPct` and `st?.cpuPct` are all
`undefined` on both result shapes: the served status falls back to
`{code: st?.ok === false ? 'offline' : 'ok', ...}` and the served metrics
are all `null`; `error` is `st?.error || 'Unknown error'` for a failed
result and `null` otherwise. -/
def serverRecord11 (h : HostRec) (t : HostTask HostData13) : ServerRecord :=
  match t with
  | HostTask.threw msg =>
      { name := h.name, baseUrl := h.baseUrl, mac := h.mac
        status := ⟨"offline", "Offline"⟩
        metrics := ⟨none, none, none⟩
        error := some msg }
  | HostTask.returned st =>
      { name := h.name, baseUrl := h.baseUrl, mac := h.mac
        status :=
          match st with
          | HostResult.fail _ => ⟨"offline", "Offline"⟩
          | HostResult.ok _ => ⟨"ok", "OK"⟩
        metrics := ⟨none, none, none⟩
        error :=
          match st with
          | HostResult.fail e => some (jsOrStr (some e) "Unknown error")
          | HostResult.ok _ => none }

/-- Embeds the allSettled `/api/servers` handler: map every configured host
(paired with its task outcome) to its served record, in order. -/
def listAllSnapshots11 (xs : List (HostRec × HostTask HostData13)) : List ServerRecord :=
  xs.map (fun pr => serverRecord11 pr.1 pr.2)

/-- C5 amended, proved for the allSettled handler: the aggregation is a
total function (never raises) returning exactly one record per configured
host in input order; the record at slot `i` depends only on host `i`
(isolation); a host whose snapshot returned `ok:false` or whose task threw
gets the degraded record `{status: {code:'offline', label:'Offline'},
metrics: all null, error: message}`, and a host whose snapshot returned
`ok:true` keeps its ordinary record. -/
theorem listAllSnapshots_isolation (xs : List (HostRec × HostTask HostData13)) :
    (listAllSnapshots11 xs).length = xs.length
  ∧ (∀ i : Nat, (listAllSnapshots11 xs)[i]?
        = (xs[i]?).map (fun pr => serverRecord11 pr.1 pr.2))
  ∧ (∀ (h : HostRec) (msg : String),
        serverRecord11 h (HostTask.returned (HostResult.fail msg))
          = { name := h.name, baseUrl := h.baseUrl, mac := h.mac
              status := ⟨"offline", "Offline"⟩
              metrics := ⟨none, none, none⟩
              error := some (jsOrStr (some msg) "Unknown error") })
  ∧ (∀ (h : HostRec) (msg : String),
        serverRecord11 h (HostTask.threw msg)
          = { name := h.name, baseUrl := h.baseUrl, mac := h.mac
              status := ⟨"offline", "Offline"⟩
              metrics := ⟨none, none, none⟩
              error := some msg })
  ∧ (∀ (h : HostRec) (d : HostData13),
        serverRecord11 h (HostTask.returned (HostResult.ok d))
          = { name := h.name, baseUrl := h.baseUrl, mac := h.mac
              status := ⟨"ok", "OK"⟩
              metrics := ⟨none, none, none⟩
              error := none }) := by
  refine ⟨?_, ?_, fun h msg => rfl, fun h msg => rfl, fun h d => rfl⟩
  · exact List.length_map xs _
  · intro i
    exact List.getElem?_map ..

/-- The record served per host by the `Promise.all` handler of server.js
(lines 312-315): `{ name, baseUrl, mac, status: st.ok ? st.data : null,
error: st.ok ? null : st.error }`. -/
structure ServerRecordJs where
  name : String
  baseUrl : String
  mac : String
  status : Option HostData13
  error : Option String
deriving DecidableEq

/-- Embeds the per-host record of the server.js handler. -/
def serverRecordJs (h : HostRec) (st : HostResult HostData13) : ServerRecordJs :=
  match st with
  | HostResult.ok d => ⟨h.name, h.baseUrl, h.mac, some d, none⟩
  | HostResult.fail e => ⟨h.name, h.baseUrl, h.mac, none, some e⟩

/-- Embeds the server.js `/api/servers` handler (`getHostStatus` itself
never rejects, so `Promise.all` resolves with one record per host). -/
def listAllSnapshotsJs (xs : List (HostRec × HostResult HostData13)) : List ServerRecordJs :=
  xs.map (fun pr => serverRecordJs pr.1 pr.2)

/-- Claim-side predicate on a served record: the claim requires the failed
host's slot to carry a status of `{code:'offline', label:'Offline'}`. -/
def recordMarkedOffline (r : ServerRecordJs) : Prop :=
  ∃ d, r.status = some d ∧ d.status = ⟨"offline", "Offline"⟩

/-- C5 counterexample: in the server.js `Promise.all` handler, a host whose
snapshot fetch failed is served as `{status: null, error: message}` — there
is no status object at all in its slot, hence no
`{code:'offline', label:'Offline'}` and no all-null metrics object, contrary
to the claim's description of the degraded record. -/
theorem listAllSnapshotsJs_counterexample :
    listAllSnapshotsJs
        [(⟨"tower", "https://10.0.0.5", "AA:BB:CC:DD:EE:FF"⟩,
          HostResult.fail "Request timed out.")]
      = [⟨"tower", "https://10.0.0.5", "AA:BB:CC:DD:EE:FF", none, some "Request timed out."⟩]
  ∧ ¬ recordMarkedOffline
        ⟨"tower", "https://10.0.0.5", "AA:BB:CC:DD:EE:FF", none, some "Request timed out."⟩ := by
  refine ⟨rfl, ?_⟩
  rintro ⟨d, hd, _⟩
  exact Option.noConfusion hd

/-! ### Action dispatcher

`containerAction` / `vmAction` — part_013 lines 234-266 and the identical
part_016 / unraid.js variants (lines 390-418).  `tryMutations` repeats the
`tryQueries` control flow on mutation documents. -/

/-- Embeds `tryMutations` (same loop as `tryQueries`: fall through on
`_validation` errors only, rethrow the last error). -/
def tryMutations {D : Type} (run : String → Except GqlErr D) (variants : List String) :
    List String × Except (Option GqlErr) D :=
  tryQueries run variants

/-- First docker mutation variant: `mutation($id:ID!){ docker { FIELD(id:$id) } }`. -/
def dockerMutationA (field : String) : String :=
  "mutation($id:ID!)\x7b docker \x7b " ++ field ++ "(id:$id) \x7d \x7d"

/-- Second docker mutation variant, keyed by `containerId`. -/
def dockerMutationB (field : String) : String :=
  "mutation($id:String!)\x7b docker \x7b " ++ field ++ "(containerId:$id) \x7d \x7d"

/-- Third docker mutation variant with the id inlined into the document. -/
def dockerMutationC (field id : String) : String :=
  "mutation\x7b docker \x7b " ++ field ++ "(id:\"" ++ id ++ "\") \x7d \x7d"

/-- The ordered docker mutation variants for one primitive (lines 240-244). -/
def dockerMutations (field id : String) : List String :=
  [dockerMutationA field, dockerMutationB field, dockerMutationC field id]

/-- Embeds the non-restart path of `containerAction` (lines 239-250):
`const field = (action === 'start' ? 'start' : 'stop')`, then the mutation
variants are tried in order and the call resolves to `true` on success. -/
def containerActionPrim (run : String → Except GqlErr Unit) (id action : String) :
    List String × Except (Option GqlErr) Bool :=
  let field := if action = "start" then "start" else "stop"
  let r := tryMutations run (dockerMutations field id)
  (r.1, r.2.map (fun _ => true))

/-- Embeds `containerAction` (lines 234-251): `restart` awaits the `stop`
primitive and, only when it resolved, returns the `start` primitive call;
every other verb goes straight to the primitive path.  The first component
accumulates, in order, the mutation documents handed to `gql`. -/
def containerAction (run : String → Except GqlErr Unit) (id action : String) :
    List String × Except (Option GqlErr) Bool :=
  if action = "restart" then
    match (containerActionPrim run id "stop").2 with
    | Except.error e => ((containerActionPrim run id "stop").1, Except.error e)
    | Except.ok _ =>
        ((containerActionPrim run id "stop").1 ++ (containerActionPrim run id "start").1,
         (containerActionPrim run id "start").2)
  else containerActionPrim run id action

/-- The VM action allow-list of `vmAction` (line 253). -/
def vmAllowedActions : List String :=
  ["start", "stop", "pause", "resume", "forceStop", "reboot", "reset"]

/-- The ordered VM mutation variants (lines 255-259). -/
def vmMutations (action id : String) : List String :=
  ["mutation($id:ID!)\x7b vm \x7b " ++ action ++ "(id:$id) \x7d \x7d",
   "mutation($id:String!)\x7b vm \x7b " ++ action ++ "(domainId:$id) \x7d \x7d",
   "mutation\x7b vm \x7b " ++ action ++ "(id:\"" ++ id ++ "\") \x7d \x7d"]

/-- Embeds `vmAction` (lines 252-266): a verb outside the allow-list throws
`Unsupported VM action: ...` before any mutation is attempted; an allowed
verb runs the mutation variants like `containerAction` does. -/
def vmAction (run : String → Except GqlErr Unit) (id action : String) :
    List String × Except (Option GqlErr) Bool :=
  if action ∈ vmAllowedActions then
    ((tryMutations run (vmMutations action id)).1,
     ((tryMutations run (vmMutations action id)).2).map (fun _ => true))
  else ([], Except.error (some ⟨"Unsupported VM action: " ++ action, false⟩))

/-- C7: `restart` issues the stop primitive first; if stop threw, the call
rethrows that error and the trace contains only stop mutations (start is
never attempted); if stop resolved, the start primitive runs and the call
returns its outcome, so a throwing start leaves the trace at exactly
stop-then-start with nothing further attempted. -/
theorem containerAction_restart_sequencing (run : String → Except GqlErr Unit) (id : String) :
    (∀ e, (containerActionPrim run id "stop").2 = Except.error e →
        containerAction run id "restart"
          = ((containerActionPrim run id "stop").1, Except.error e))
  ∧ ((containerActionPrim run id "stop").2 = Except.ok true →
        containerAction run id "restart"
          = ((containerActionPrim run id "stop").1 ++ (containerActionPrim run id "start").1,
             (containerActionPrim run id "start").2))
  ∧ (∀ q ∈ (containerActionPrim run id "stop").1, q ∈ dockerMutations "stop" id)
  ∧ (∀ q ∈ (containerActionPrim run id "start").1, q ∈ dockerMutations "start" id) := by
  have hif : containerAction run id "restart"
      = (match (containerActionPrim run id "stop").2 with
         | Except.error e => ((containerActionPrim run id "stop").1, Except.error e)
         | Except.ok _ =>
             ((containerActionPrim run id "stop").1 ++ (containerActionPrim run id "start").1,
              (containerActionPrim run id "start").2)) := by
    rw [containerAction, if_pos rfl]
  refine ⟨fun e he => ?_, fun hok => ?_, fun q hq => ?_, fun q hq => ?_⟩
  · rw [hif, he]
  · rw [hif, hok]
  · exact tryQueriesAux_trace_mem run (dockerMutations "stop" id) none q hq
  · exact tryQueriesAux_trace_mem run (dockerMutations "start" id) none q hq

/-- Behaviour where every mutation succeeds. -/
def demoRunAllOk : String → Except GqlErr Unit := fun _ => Except.ok ()

/-- Behaviour where the first stop mutation hard-fails. -/
def demoRunStopFails : String → Except GqlErr Unit := fun q =>
  if q = dockerMutationA "stop" then Except.error ⟨"HTTP 502 bad gateway", false⟩
  else Except.ok ()

/-- Behaviour where stop succeeds and the first start mutation hard-fails. -/
def demoRunStartFails : String → Except GqlErr Unit := fun q =>
  if q = dockerMutationA "start" then Except.error ⟨"HTTP 502 bad gateway", false⟩
  else Except.ok ()

/-- Witness for C7: when stop throws, the restart call rethrows and only the
stop mutation was sent; when stop succeeds and start throws, the call throws
after exactly stop-then-start; when both succeed the call resolves `true`. -/
theorem containerAction_restart_sequencing_witness :
    containerAction demoRunStopFails "c1" "restart"
      = ([dockerMutationA "stop"],
         Except.error (some ⟨"HTTP 502 bad gateway", false⟩))
  ∧ containerAction demoRunStartFails "c1" "restart"
      = ([dockerMutationA "stop", dockerMutationA "start"],
         Except.error (some ⟨"HTTP 502 bad gateway", false⟩))
  ∧ containerAction demoRunAllOk "c1" "restart"
      = ([dockerMutationA "stop", dockerMutationA "start"], Except.ok true) := by
  refine ⟨?_, ?_, ?_⟩
  · exact (containerAction_restart_sequencing demoRunStopFails "c1").1
      (some ⟨"HTTP 502 bad gateway", false⟩) rfl
  · exact (containerAction_restart_sequencing demoRunStartFails "c1").2.1 rfl
  · exact (containerAction_restart_sequencing demoRunAllOk "c1").2.1 rfl

/-- C10: a container verb other than `restart` and `start` — `pause`, a
misspelling, anything — is not rejected before I/O: the verb maps to the
`stop` mutation field, the stop mutation variants are executed against the
backend (the first document attempted is the first stop variant), and only
`vmAction` validates its verb against an allow-list before any I/O. -/
theorem containerAction_unknown_verb (run : String → Except GqlErr Unit)
    (id action : String) (h1 : action ≠ "restart") (h2 : action ≠ "start") :
    containerAction run id action
      = ((tryMutations run (dockerMutations "stop" id)).1,
         ((tryMutations run (dockerMutations "stop" id)).2).map (fun _ => true))
  ∧ (containerAction run id action).1.head? = some (dockerMutationA "stop")
  ∧ (∀ a : String, a ∉ vmAllowedActions →
        vmAction run id a = ([], Except.error (some ⟨"Unsupported VM action: " ++ a, false⟩))) := by
  have hprim : containerAction run id action
      = ((tryMutations run (dockerMutations "stop" id)).1,
         ((tryMutations run (dockerMutations "stop" id)).2).map (fun _ => true)) := by
    rw [containerAction, if_neg h1, containerActionPrim]
    rw [if_neg h2]
  refine ⟨hprim, ?_, fun a ha => ?_⟩
  · rw [hprim]
    exact tryQueriesAux_trace_head run (dockerMutationA "stop")
      [dockerMutationB "stop", dockerMutationC "stop" id] none
  · rw [vmAction, if_neg ha]

/-- Witness for C10: the verb `pause` (not in the documented container set)
is executed as a stop against the backend, while the VM verb `kill` is
rejected before any mutation is attempted. -/
theorem containerAction_unknown_verb_witness :
    containerAction demoRunAllOk "c1" "pause" = ([dockerMutationA "stop"], Except.ok true)
  ∧ (containerAction demoRunAllOk "c1" "pause").1.head? = some (dockerMutationA "stop")
  ∧ vmAction demoRunAllOk "vm1" "kill"
      = ([], Except.error (some ⟨"Unsupported VM action: kill", false⟩)) := by
  have h := containerAction_unknown_verb demoRunAllOk "c1" "pause" (by decide) (by decide)
  refine ⟨?_, h.2.1, h.2.2 "kill" (by decide)⟩
  rw [h.1]
  rfl

/-! ### Configuration store

`configStore.js` holds the host list and the token map keyed by `baseUrl`.
The repository carries several variants of `deleteHost`: the one at lines
46-51 filters the host list and throws `Host not found.` when nothing was
removed, but leaves the token map untouched; the in-memory variant at lines
165-168 also deletes `tokens[baseUrl]`; the file-backed variant at lines
240-249 deletes the token only when `tokens[baseUrl]` is truthy (its
`getToken` coalesces a missing entry to the empty string). -/

/-- The store state: the parsed hosts.json list and the tokens.json map,
the latter as an association list keyed by base URL. -/
structure StoreState where
  hosts : List HostRec
  tokens : List (String × String)
deriving DecidableEq

/-- Embeds `tokens[baseUrl]` (and the variant-1 `getToken`). -/
def lookupToken (tokens : List (String × String)) (baseUrl : String) : Option String :=
  (tokens.find? (fun kv => kv.1 == baseUrl)).map Prod.snd

/-- Embeds `deleteHost` of the configStore.js variant at lines 46-51:
filter the host list, throw when nothing was removed, persist — the token
map is not touched. -/
def deleteHostV1 (s : StoreState) (baseUrl : String) : Except String StoreState :=
  let remaining := s.hosts.filter (fun h => !(h.baseUrl == baseUrl))
  if remaining.length = s.hosts.length then Except.error "Host not found."
  else Except.ok { hosts := remaining, tokens := s.tokens }

/-- Embeds `deleteHost` of the in-memory variant at lines 165-168: filter
the host list and `delete tokens[baseUrl]`. -/
def deleteHostV3 (s : StoreState) (baseUrl : String) : StoreState :=
  { hosts := s.hosts.filter (fun h => !(h.baseUrl == baseUrl))
    tokens := s.tokens.filter (fun kv => !(kv.1 == baseUrl)) }

/-- Embeds `deleteHost` of the file-backed variant at lines 240-249: filter
the host list and delete the token only when `tokens[baseUrl]` is truthy
(an empty-string token is left in place). -/
def deleteHostV4 (s : StoreState) (baseUrl : String) : StoreState :=
  { hosts := s.hosts.filter (fun h => !(h.baseUrl == baseUrl))
    tokens :=
      match lookupToken s.tokens baseUrl with
      | some t =>
          if t.isEmpty then s.tokens
          else s.tokens.filter (fun kv => !(kv.1 == baseUrl))
      | none => s.tokens }

/-- Embeds `getToken` of the file-backed variant (lines 258-261):
`tokens[baseUrl] || ''`. -/
def getTokenV4 (s : StoreState) (baseUrl : String) : String :=
  jsOrStr (lookupToken s.tokens baseUrl) ""

theorem lookupToken_erase (baseUrl : String) :
    ∀ tokens : List (String × String),
      lookupToken (tokens.filter (fun kv => !(kv.1 == baseUrl))) baseUrl = none
  | [] => rfl
  | kv :: rest => by
      cases hk : (kv.1 == baseUrl) with
      | true =>
        have hfil : (kv :: rest).filter (fun kv => !(kv.1 == baseUrl))
            = rest.filter (fun kv => !(kv.1 == baseUrl)) := by
          simp [List.filter, hk]
        rw [hfil]
        exact lookupToken_erase baseUrl rest
      | false =>
        have hfil : (kv :: rest).filter (fun kv => !(kv.1 == baseUrl))
            = kv :: rest.filter (fun kv => !(kv.1 == baseUrl)) := by
          simp [List.filter, hk]
        rw [hfil, lookupToken, List.find?]
        rw [hk]
        exact lookupToken_erase baseUrl rest

/-- C9 counterexample: in the configStore.js `deleteHost` at lines 46-51,
deleting the only configured host succeeds and leaves the host list empty,
yet the credential stored for that base URL is still retrievable — the
credential outlives its host record, so it is not the case that every
`deleteHost` variant removes the credential. -/
theorem deleteHostV1_keeps_credential_counterexample :
    deleteHostV1 ⟨[⟨"tower", "https://10.0.0.5", "AA:BB:CC:DD:EE:FF"⟩],
                  [("https://10.0.0.5", "secret")]⟩ "https://10.0.0.5"
      = Except.ok ⟨[], [("https://10.0.0.5", "secret")]⟩
  ∧ lookupToken [("https://10.0.0.5", "secret")] "https://10.0.0.5" = some "secret"
  ∧ (some "secret" : Option String) ≠ none :=
  ⟨rfl, rfl, by decide⟩

/-- C9 amended: the token-deleting `deleteHost` variants do remove the
credential with the host record — after `deleteHost` on the in-memory
variant (lines 165-168) the token lookup is empty, after `deleteHost` on
the file-backed variant (lines 240-249) `getToken` returns the empty
string (its encoding of "no credential"), and neither variant keeps a host
record with the deleted base URL; the variant at lines 46-51 leaves the
credential in place. -/
theorem deleteHost_removes_credential (s : StoreState) (baseUrl : String) :
    lookupToken (deleteHostV3 s baseUrl).tokens baseUrl = none
  ∧ getTokenV4 (deleteHostV4 s baseUrl) baseUrl = ""
  ∧ ((deleteHostV3 s baseUrl).hosts.all (fun h => !(h.baseUrl == baseUrl))) = true
  ∧ ((deleteHostV4 s baseUrl).hosts.all (fun h => !(h.baseUrl == baseUrl))) = true := by
  refine ⟨lookupToken_erase baseUrl s.tokens, ?_, ?_, ?_⟩
  · rw [getTokenV4]
    cases hl : lookupToken s.tokens baseUrl with
    | none => simp [deleteHostV4, hl, jsOrStr]
    | some t =>
      cases he : t.isEmpty with
      | true => simp [deleteHostV4, hl, he, jsOrStr]
      | false => simp [deleteHostV4, hl, he, jsOrStr, lookupToken_erase baseUrl s.tokens]
  · rw [List.all_eq_true]
    intro x hx
    exact (List.mem_filter.mp hx).2
  · rw [List.all_eq_true]
    intro x hx
    exact (List.mem_filter.mp hx).2

end UnraidDash
